import Mathlib

/-!
Verification of the scikit-hubness approximate-neighbor / LOF pipeline.

The file embeds, as Lean definitions, the code of
`skhubness/neighbors/approximate_neighbors.py` (the `ApproximateNearestNeighbor`
abstract base class and the `UnavailableANN` placeholder) and, where the
implementation is only described by the specification (the `LocalOutlierFactor`
scorer and the concrete ANN backends), a model built from the specification's
own words.  Machine floats are idealised as elements of a linear ordered field
(`ℚ` where the computation is rational, `ℝ` where square roots appear).
-/

/-- Python exception kinds that the analysed code can raise. -/
inductive PyError
  | valueError (msg : String)
  | notFittedError
  | attributeError (msg : String)
deriving DecidableEq, Repr

/-- Python warning categories relevant to the analysed code.  `warnings.warn(msg)`
with no explicit category argument emits a `UserWarning`. -/
inductive WarningCategory
  | userWarning
  | runtimeWarning
deriving DecidableEq, Repr

/-- A Python warning: category together with the message text. -/
structure Warning where
  category : WarningCategory
  message : String
deriving DecidableEq, Repr

/-- Embedding of `multiprocessing.cpu_count()`: an environment-supplied positive
count of processing units, passed explicitly. -/
def cpu_count_spec (cpuCount : Nat) : Nat := cpuCount

/-- Embedding of the field state set up by `ApproximateNearestNeighbor.__init__`. -/
structure ApproximateNearestNeighbor where
  n_candidates : Int
  metric : String
  n_jobs : Int
  verbose : Int
deriving DecidableEq, Repr

/-- The `n_jobs` resolution performed by `ApproximateNearestNeighbor.__init__`:
`None` becomes `1`, `-1` becomes `cpu_count()`, anything else is kept. -/
def resolve_n_jobs (cpuCount : Nat) (n_jobs : Option Int) : Int :=
  match n_jobs with
  | none => 1
  | some j => if j = -1 then (cpuCount : Int) else j

/-- Embedding of `ApproximateNearestNeighbor.__init__`. -/
def ApproximateNearestNeighbor.init (cpuCount : Nat) (n_candidates : Int)
    (metric : String) (n_jobs : Option Int) (verbose : Int) :
    ApproximateNearestNeighbor :=
  { n_candidates := n_candidates
    metric := metric
    n_jobs := resolve_n_jobs cpuCount n_jobs
    verbose := verbose }

/-- Embedding of the instance state of `UnavailableANN` (it adds no fields
beyond the base class). -/
structure UnavailableANN where
  n_candidates : Int
  metric : String
  n_jobs : Int
  verbose : Int
deriving DecidableEq, Repr

/-- The message of the warning emitted by `UnavailableANN.__init__`. -/
def unavailableWarningMsg : String :=
  "The chosen approximate nearest neighbor method is not supported on your platform."

/-- Embedding of `UnavailableANN.__init__`: delegates to the base constructor and
emits `warnings.warn(...)`, whose default category is `UserWarning`.  The second
component collects the warnings emitted during construction. -/
def UnavailableANN.init (cpuCount : Nat) (n_candidates : Int) (metric : String)
    (n_jobs : Option Int) (verbose : Int) : UnavailableANN × List Warning :=
  let base := ApproximateNearestNeighbor.init cpuCount n_candidates metric n_jobs verbose
  ({ n_candidates := base.n_candidates
     metric := base.metric
     n_jobs := base.n_jobs
     verbose := base.verbose },
   [{ category := WarningCategory.userWarning, message := unavailableWarningMsg }])

/-- Embedding of `sklearn.utils.check_array` on a nested numeric list: accepted
exactly when it is a rectangular 2-D matrix with at least one sample and at
least one feature. -/
def check_array_ok (X : List (List ℚ)) : Bool :=
  decide (0 < X.length) &&
    X.all (fun row => decide (0 < row.length) && (row.length == (X.headD []).length))

/-- Embedding of `UnavailableANN.fit`: runs `check_array(X)` and returns `self`
unchanged on success. -/
def UnavailableANN.fit (self : UnavailableANN) (X : List (List ℚ)) :
    Except PyError UnavailableANN :=
  if check_array_ok X then Except.ok self
  else Except.error (PyError.valueError "check_array failed on X")

/-- Embedding of `UnavailableANN.kneighbors`: the body is `pass`, so the call
returns `None` for every argument combination and never raises. -/
def UnavailableANN.kneighbors (_self : UnavailableANN) (_X : Option (List (List ℚ)))
    (_n_candidates : Option Int) (_return_distance : Bool) :
    Except PyError (Option (List (List ℚ) × List (List Nat))) :=
  Except.ok none

/-! ### Generic list machinery shared by the neighbor-graph computations. -/

/-- Pair every element of a list with its index, starting from `i`. -/
def withIdx {α : Type} (i : Nat) : List α → List (α × Nat)
  | [] => []
  | x :: xs => (x, i) :: withIdx (i + 1) xs

/-- Insert a (distance, index) pair into a list sorted by ascending distance;
at equal distances the inserted element goes first, so that the enumeration
order (lower index first) is preserved — the "lower index wins ties" rule. -/
def insertSorted {α : Type} [LinearOrder α] (x : α × Nat) :
    List (α × Nat) → List (α × Nat)
  | [] => [x]
  | y :: ys => if x.1 ≤ y.1 then x :: y :: ys else y :: insertSorted x ys

/-- Stable insertion sort of (distance, index) pairs by ascending distance. -/
def sortPairs {α : Type} [LinearOrder α] : List (α × Nat) → List (α × Nat)
  | [] => []
  | x :: xs => insertSorted x (sortPairs xs)

/-- First `k` elements of a list. -/
def takeK {β : Type} : Nat → List β → List β
  | 0, _ => []
  | _ + 1, [] => []
  | n + 1, x :: xs => x :: takeK n xs

/-! ### LocalOutlierFactor, modelled from the specification.

The `LocalOutlierFactor` implementation is not among the analysed sources
(only its test-suite is), so the scorer below is built from the
specification's §4.3/§4.4 description of the algorithm. -/

/-- Modelled from the spec (§4.3, missing `LocalOutlierFactor` source): the
sorted candidate list of one query row of a distance matrix — all (distance,
reference index) pairs, the self index excluded when the query is a fitted
point, ordered by increasing distance. -/
def candidates {α : Type} [LinearOrder α] (exclude : Option Nat) (row : List α) :
    List (α × Nat) :=
  sortPairs ((withIdx 0 row).filter (fun p => !(some p.2 == exclude)))

/-- Modelled from the spec (§4.3, missing `LocalOutlierFactor` source): the `k`
nearest neighbors of one query row, self excluded when querying a fitted point. -/
def knnRow {α : Type} [LinearOrder α] (k : Nat) (exclude : Option Nat)
    (row : List α) : List (α × Nat) :=
  takeK k (candidates exclude row)

/-- Modelled from the spec (glossary, missing `LocalOutlierFactor` source): the
k-distance of fitted point `j` — the distance to its `k`-th nearest neighbor,
itself excluded. -/
def kdist {α : Type} [LinearOrderedField α] (k : Nat) (D : List (List α))
    (j : Nat) : α :=
  ((knnRow k (some j) (D.getD j [])).getD (k - 1) (0, 0)).1

/-- Modelled from the spec (§4.4, missing `LocalOutlierFactor` source): the
k-distances of all fitted points. -/
def kdists {α : Type} [LinearOrderedField α] (k : Nat) (D : List (List α)) :
    List α :=
  (withIdx 0 D).map (fun p => kdist k D p.2)

/-- Modelled from the spec (§4.4, missing `LocalOutlierFactor` source): the sum
of reachability distances from a query point to its neighbors, where the
reachability distance to neighbor `b` is `max(distance, k-distance(b))`. -/
def reachSum {α : Type} [LinearOrderedField α] (kds : List α)
    (ns : List (α × Nat)) : α :=
  (ns.map (fun p => max p.1 (kds.getD p.2 0))).sum

/-- Modelled from the spec (§4.4, missing `LocalOutlierFactor` source): the
local reachability density of a query point — the inverse of the average
reachability distance to its neighbors. -/
def lrdOf {α : Type} [LinearOrderedField α] (kds : List α)
    (ns : List (α × Nat)) : α :=
  (ns.length : α) / reachSum kds ns

/-- Modelled from the spec (§4.4, missing `LocalOutlierFactor` source): the
local reachability densities of all fitted points (self-excluded neighbor
graph). -/
def lrds {α : Type} [LinearOrderedField α] (k : Nat) (D : List (List α)) :
    List α :=
  (withIdx 0 D).map (fun p => lrdOf (kdists k D) (knnRow k (some p.2) p.1))

/-- Modelled from the spec (§4.4, missing `LocalOutlierFactor` source): the
outlier factor of one query row — the ratio of the average local reachability
density of its neighbors to its own local reachability density. -/
def lofScoreRow {α : Type} [LinearOrderedField α] (k : Nat) (kds : List α)
    (lrdsRef : List α) (exclude : Option Nat) (row : List α) : α :=
  let ns := knnRow k exclude row
  ((ns.map (fun p => lrdsRef.getD p.2 0)).sum / (ns.length : α)) / lrdOf kds ns

/-- Modelled from the spec (§4.4, missing `LocalOutlierFactor` source): the
`contamination` parameter is valid when it is `"auto"` (here `none`) or a
fraction in `(0, 0.5]`. -/
def contaminationValid (c : Option ℚ) : Bool :=
  match c with
  | none => true
  | some q => decide (0 < q) && decide (q ≤ 1 / 2)

/-- Modelled from the spec (§3, missing `LocalOutlierFactor` source): the array
validation a distance matrix must pass at `fit` — square, with at least one
sample. -/
def matrixOk {α : Type} (D : List (List α)) : Bool :=
  decide (0 < D.length) && D.all (fun row => row.length == D.length)

/-- Insertion of a value into an ascending-sorted list. -/
def insertVal {α : Type} [LinearOrder α] (x : α) : List α → List α
  | [] => [x]
  | y :: ys => if x ≤ y then x :: y :: ys else y :: insertVal x ys

/-- Ascending insertion sort of a value list. -/
def sortVals {α : Type} [LinearOrder α] : List α → List α
  | [] => []
  | x :: xs => insertVal x (sortVals xs)

/-- Modelled from the spec (§4.4, missing `LocalOutlierFactor` source): the
threshold `offset_` derived from `contamination` so that the bottom
`contamination` fraction of training scores fall below it; `"auto"` uses the
conventional fixed offset `-1.5`. -/
def lofOffset {α : Type} [LinearOrderedField α] (c : Option ℚ)
    (scores : List α) : α :=
  match c with
  | none => -(3 / 2 : α)
  | some q => (sortVals scores).getD ((⌈q * (scores.length : ℚ)⌉).toNat - 1) 0

/-- Modelled from the spec (§3, missing `LocalOutlierFactor` source): the state
owned by a fitted `LocalOutlierFactor`. -/
structure LOFFitted (α : Type) where
  n_neighbors_ : Nat
  refD : List (List α)
  kdists_ : List α
  lrds_ : List α
  negative_outlier_factor_ : List α
  offset_ : α

/-- The warning message of the `n_neighbors` clamp. -/
def clampWarningMsg : String := "n_neighbors will be set to (n_samples - 1)"

/-- The `ValueError` message of the `contamination` range check. -/
def contaminationErrMsg : String := "contamination must be in (0, 0.5]"

/-- Modelled from the spec (§4.3/§4.4, missing `LocalOutlierFactor` source):
`fit` on a precomputed distance matrix.  Validates `contamination`, validates
the matrix, clamps `n_neighbors` to `n_samples - 1` with a warning when it is
too large, then computes k-distances, local reachability densities, the
negated outlier factors of the fitted points (self-excluded), and the offset. -/
def lofFitCore {α : Type} [LinearOrderedField α] (k : Nat) (c : Option ℚ)
    (D : List (List α)) : Except PyError (LOFFitted α × List Warning) :=
  if contaminationValid c = false then
    Except.error (PyError.valueError contaminationErrMsg)
  else if matrixOk D = false then
    Except.error (PyError.valueError "check_array failed on X")
  else
    let n := D.length
    let kk := if n ≤ k then n - 1 else k
    let warns : List Warning :=
      if n ≤ k then [{ category := WarningCategory.userWarning, message := clampWarningMsg }]
      else []
    let kds := kdists kk D
    let ls := lrds kk D
    let nof := (withIdx 0 D).map (fun p => -lofScoreRow kk kds ls (some p.2) p.1)
    Except.ok ({ n_neighbors_ := kk
                 refD := D
                 kdists_ := kds
                 lrds_ := ls
                 negative_outlier_factor_ := nof
                 offset_ := lofOffset c nof }, warns)

/-- Modelled from the spec (§4.4, missing `LocalOutlierFactor` source):
`score_samples` on the rows of a query-to-reference distance matrix — the
negated outlier factor of each query point against the fitted reference graph,
queries never excluded as self. -/
def LOFFitted.score_samples {α : Type} [LinearOrderedField α] (m : LOFFitted α)
    (Dq : List (List α)) : List α :=
  Dq.map (fun row => -lofScoreRow m.n_neighbors_ m.kdists_ m.lrds_ none row)

/-- Modelled from the spec (§4.4, missing `LocalOutlierFactor` source):
`decision_function(X) = score_samples(X) - offset_`. -/
def LOFFitted.decision_function {α : Type} [LinearOrderedField α]
    (m : LOFFitted α) (Dq : List (List α)) : List α :=
  (m.score_samples Dq).map (fun s => s - m.offset_)

/-- Modelled from the spec (§4.4, missing `LocalOutlierFactor` source):
`predict(X) = sign(decision_function(X))`, `≥ 0 ↦ +1`, `< 0 ↦ -1`. -/
def LOFFitted.predict {α : Type} [LinearOrderedField α] (m : LOFFitted α)
    (Dq : List (List α)) : List Int :=
  (m.decision_function Dq).map (fun s => if 0 ≤ s then 1 else -1)

/-- Modelled from the spec (§4.4, missing `LocalOutlierFactor` source): the
training-set prediction (`_predict()` / `fit_predict`), thresholding the stored
training scores against `offset_`. -/
def LOFFitted.predictTrain {α : Type} [LinearOrderedField α] (m : LOFFitted α) :
    List Int :=
  m.negative_outlier_factor_.map (fun s => if 0 ≤ s - m.offset_ then 1 else -1)

/-- Squared Euclidean distance of two rational feature vectors. -/
def sqdistQ (x y : List ℚ) : ℚ :=
  ((x.zip y).map (fun p => (p.1 - p.2) ^ 2)).sum

/-- Modelled from the spec (§4.3, missing `LocalOutlierFactor` source): the row
of distances from one query vector to every reference vector, through a
square-root oracle `s` (the idealised float `sqrt`). -/
def featureRow {α : Type} (s : ℚ → α) (y : List ℚ) (X : List (List ℚ)) :
    List α :=
  X.map (fun x => s (sqdistQ y x))

/-- Modelled from the spec (§4.3, missing `LocalOutlierFactor` source): the full
Euclidean distance matrix of a feature matrix, through square-root oracle `s`. -/
def euclidMatrixWith {α : Type} (s : ℚ → α) (X : List (List ℚ)) :
    List (List α) :=
  X.map (fun x => featureRow s x X)

/-- Modelled from the spec (§4.3, missing `LocalOutlierFactor` source): the
query-to-reference Euclidean distance matrix, through square-root oracle `s`. -/
def crossMatrixWith {α : Type} (s : ℚ → α) (Y X : List (List ℚ)) :
    List (List α) :=
  Y.map (fun y => featureRow s y X)

/-- Modelled from the spec (§4.3, missing `LocalOutlierFactor` source):
feature-matrix mode of `fit` — compute the Euclidean distance matrix of `X`,
then run the same scoring core as precomputed mode. -/
def lofFitFeatures {α : Type} [LinearOrderedField α] (s : ℚ → α) (k : Nat)
    (c : Option ℚ) (X : List (List ℚ)) :
    Except PyError (LOFFitted α × List Warning) :=
  lofFitCore k c (euclidMatrixWith s X)

/-- Modelled from the spec (§4.4, missing `LocalOutlierFactor` source): the
attribute-availability rule toggled by `novelty`: `predict`,
`decision_function` and `score_samples` exist only when `novelty=True`,
`fit_predict` only when `novelty=False`; a disabled attribute access raises
`AttributeError` with the documented message. -/
def lofGetattr (novelty : Bool) (name : String) : Except PyError Unit :=
  if name = "fit_predict" then
    if novelty then
      Except.error (PyError.attributeError "fit_predict is not available when novelty=True")
    else Except.ok ()
  else if name = "predict" ∨ name = "decision_function" ∨ name = "score_samples" then
    if novelty then Except.ok ()
    else Except.error (PyError.attributeError (name ++ " is not available when novelty=False"))
  else Except.ok ()

/-- Modelled from the spec (§4.1, missing LSH/HNSW backend sources): the state
of a generic concrete ANN backend — configuration plus the optionally fitted
reference set. -/
structure SpecANNBackend where
  n_candidates : Nat
  fitted : Option (List (List ℚ))

/-- Modelled from the spec (§4.1, missing LSH/HNSW backend sources): `fit`
validates and indexes the reference set. -/
def SpecANNBackend.fit (b : SpecANNBackend) (X : List (List ℚ)) :
    Except PyError SpecANNBackend :=
  if check_array_ok X then Except.ok { b with fitted := some X }
  else Except.error (PyError.valueError "check_array failed on X")

/-- Modelled from the spec (§4.1, missing LSH/HNSW backend sources):
`kneighbors` "fails with NotFittedError if kneighbors is called before fit";
once fitted it returns the sorted nearest (sq-distance, index) candidates per
query row, self excluded when the query is the fitted set itself. -/
def SpecANNBackend.kneighbors (b : SpecANNBackend)
    (X : Option (List (List ℚ))) : Except PyError (List (List (ℚ × Nat))) :=
  match b.fitted with
  | none => Except.error PyError.notFittedError
  | some ref =>
      Except.ok (match X with
        | none =>
            (withIdx 0 ref).map (fun p =>
              takeK b.n_candidates
                (candidates (some p.2) (ref.map (fun x => sqdistQ p.1 x))))
        | some q =>
            q.map (fun y =>
              takeK b.n_candidates
                (candidates none (ref.map (fun x => sqdistQ y x)))))

/-! ### Theorems settling the claims. -/

/-- Evaluation of the Euclidean distance matrix of the three-point training
set `[[1,1],[1,2],[2,1]]`: the off-diagonal distances are `1, 1, √2`. -/
theorem euclid_matrix_three_points :
    euclidMatrixWith (fun q => Real.sqrt (q : ℝ)) [[1, 1], [1, 2], [2, 1]]
      = [[0, 1, 1], [1, 0, Real.sqrt 2], [1, Real.sqrt 2, 0]] := by
  norm_num [euclidMatrixWith, featureRow, sqdistQ, Real.sqrt_one, Real.sqrt_zero]

/-- Reduction of `takeK 2` on a list with at least two elements. -/
theorem takeK_two_cons {β : Type} (x y : β) (l : List β) :
    takeK 2 (x :: y :: l) = [x, y] := rfl

/-- Reduction of `List.getD` at index `1`. -/
theorem getD_cons_one {β : Type} (d a b : β) (l : List β) :
    List.getD (a :: b :: l) 1 d = b := rfl

/-- Reduction of `List.getD` at index `2`. -/
theorem getD_cons_two {β : Type} (d a b c : β) (l : List β) :
    List.getD (a :: b :: c :: l) 2 d = c := rfl

/-- Reduction of `List.getD` at index `0`. -/
theorem getD_cons_zero {β : Type} (d a : β) (l : List β) :
    List.getD (a :: l) 0 d = a := rfl

/-- Reduction of list indexing at index `1`. -/
theorem getElem_list_one {β : Type} (a b : β) (l : List β)
    (h : 1 < (a :: b :: l).length) : (a :: b :: l)[1] = b := rfl

/-- Reduction of list indexing at index `2`. -/
theorem getElem_list_two {β : Type} (a b c : β) (l : List β)
    (h : 2 < (a :: b :: c :: l).length) : (a :: b :: c :: l)[2] = c := rfl

/-- Reduction of list indexing at index `0`. -/
theorem getElem_list_zero {β : Type} (a : β) (l : List β)
    (h : 0 < (a :: l).length) : (a :: l)[0] = a := rfl

/-- Sorted self-excluded candidates of row 0 of the symbolic three-point
distance matrix. -/
theorem candidates_row0 :
    candidates (some 0) [(0:ℝ), 1, 1] = [((1:ℝ), 1), (1, 2)] := by
  simp [candidates, withIdx, sortPairs, insertSorted, List.filter]

/-- Sorted self-excluded candidates of row 1 of the symbolic three-point
distance matrix. -/
theorem candidates_row1 (s : ℝ) (h1 : (1:ℝ) ≤ s) :
    candidates (some 1) [1, 0, s] = [((1:ℝ), 0), (s, 2)] := by
  simp [candidates, withIdx, sortPairs, insertSorted, List.filter, h1]

/-- Sorted self-excluded candidates of row 2 of the symbolic three-point
distance matrix. -/
theorem candidates_row2 (s : ℝ) (h1 : (1:ℝ) ≤ s) :
    candidates (some 2) [1, s, 0] = [((1:ℝ), 0), (s, 1)] := by
  simp [candidates, withIdx, sortPairs, insertSorted, List.filter, h1]

/-- The 2-distances of the symbolic three-point matrix are `[1, s, s]`. -/
theorem kdists_three (s : ℝ) (h1 : (1:ℝ) ≤ s) :
    kdists 2 [[0, 1, 1], [1, 0, s], [1, s, 0]] = [1, s, s] := by
  norm_num [kdists, kdist, withIdx, knnRow, getD_cons_zero, getD_cons_one,
    getD_cons_two, candidates_row0, candidates_row1 s h1,
    candidates_row2 s h1, takeK_two_cons]

/-- The local reachability densities of the symbolic three-point matrix. -/
theorem lrds_three (s : ℝ) (h1 : (1:ℝ) ≤ s) :
    lrds 2 [[0, 1, 1], [1, 0, s], [1, s, 0]]
      = [2 / (s + s), 2 / (1 + s), 2 / (1 + s)] := by
  have hmax : max (1:ℝ) s = s := max_eq_right h1
  norm_num [lrds, withIdx, knnRow, kdists_three s h1, getD_cons_zero,
    getD_cons_one, getD_cons_two, candidates_row0, candidates_row1 s h1,
    candidates_row2 s h1, takeK_two_cons, lrdOf, reachSum, hmax, max_self,
    getElem_list_zero, getElem_list_one, getElem_list_two]

/-- Evaluation of the scoring core on the symbolic distance matrix of the
three-point set, with `s` standing for the diagonal distance (`√2`): with
`n_neighbors=2` the negated outlier factors are
`[-(2s/(1+s)), -((1+s)(1/(4s) + 1/(2+2s))), same]`, for every valid
contamination. -/
theorem lofFitCore_three_point_sym (c : Option ℚ)
    (hc : contaminationValid c = true) (s : ℝ) (h1 : (1:ℝ) ≤ s) :
    (lofFitCore 2 c [[0, 1, 1], [1, 0, s], [1, s, 0]]).map
        (fun r => r.1.negative_outlier_factor_)
      = Except.ok [-(2 * s / (1 + s)),
                   -((1 + s) * (1 / (4 * s) + 1 / (2 + 2 * s))),
                   -((1 + s) * (1 / (4 * s) + 1 / (2 + 2 * s)))] := by
  have hs : (0:ℝ) < s := lt_of_lt_of_le one_pos h1
  have hs' : s ≠ 0 := ne_of_gt hs
  have h1s : (1:ℝ) + s ≠ 0 := by positivity
  have hmax : max (1:ℝ) s = s := max_eq_right h1
  norm_num [lofFitCore, hc, matrixOk, Except.map, withIdx, knnRow,
    lofScoreRow, lrdOf, reachSum, kdists_three s h1, lrds_three s h1,
    candidates_row0, candidates_row1 s h1, candidates_row2 s h1,
    takeK_two_cons, getD_cons_zero, getD_cons_one, getD_cons_two,
    getElem_list_zero, getElem_list_one, getElem_list_two, hmax, max_self]
  field_simp
  exact ⟨by ring, by ring⟩

/-- C1: fitting the scorer on the training set `[[1,1],[1,2],[2,1]]` with
`n_neighbors=2` (Euclidean feature mode — the exact neighbor graph) yields
`-negative_outlier_factor_ = [2√2/(1+√2), s1, s1]` with
`s1 = (1+√2)·(1/(4√2) + 1/(2+2√2))`, for every valid contamination setting. -/
theorem C1_lof_values_closed_form (c : Option ℚ)
    (hc : contaminationValid c = true) :
    (lofFitFeatures (fun q => Real.sqrt (q : ℝ)) 2 c [[1, 1], [1, 2], [2, 1]]).map
        (fun r => r.1.negative_outlier_factor_)
      = Except.ok [-(2 * Real.sqrt 2 / (1 + Real.sqrt 2)),
                   -((1 + Real.sqrt 2) * (1 / (4 * Real.sqrt 2) + 1 / (2 + 2 * Real.sqrt 2))),
                   -((1 + Real.sqrt 2) * (1 / (4 * Real.sqrt 2) + 1 / (2 + 2 * Real.sqrt 2)))] := by
  have h1 : (1:ℝ) ≤ Real.sqrt 2 := by
    rw [← Real.sqrt_one]
    exact Real.sqrt_le_sqrt (by norm_num)
  unfold lofFitFeatures
  rw [euclid_matrix_three_points]
  exact lofFitCore_three_point_sym c hc _ h1

/-- Witness for C1 at `contamination=0.1` (the test's own setting). -/
theorem C1_lof_values_closed_form_witness :
    contaminationValid (some (1 / 10)) = true
    ∧ (lofFitFeatures (fun q => Real.sqrt (q : ℝ)) 2 (some (1 / 10))
          [[1, 1], [1, 2], [2, 1]]).map (fun r => r.1.negative_outlier_factor_)
        = Except.ok [-(2 * Real.sqrt 2 / (1 + Real.sqrt 2)),
                     -((1 + Real.sqrt 2) * (1 / (4 * Real.sqrt 2) + 1 / (2 + 2 * Real.sqrt 2))),
                     -((1 + Real.sqrt 2) * (1 / (4 * Real.sqrt 2) + 1 / (2 + 2 * Real.sqrt 2)))] :=
  ⟨by norm_num [contaminationValid],
   C1_lof_values_closed_form (some (1 / 10)) (by norm_num [contaminationValid])⟩

/-- C2: for every fitted `LocalOutlierFactor` (with the prediction methods
available, i.e. `novelty=True`) and every query distance matrix,
`score_samples(X)` equals `decision_function(X) + offset_` exactly. -/
theorem C2_score_samples_eq_decision_plus_offset (m : LOFFitted ℝ)
    (Dq : List (List ℝ)) :
    m.score_samples Dq = (m.decision_function Dq).map (fun s => s + m.offset_) := by
  simp [LOFFitted.decision_function, List.map_map, Function.comp_def]

/-- C3: with `novelty=False`, accessing `predict`, `decision_function` or
`score_samples` raises `AttributeError` with message
"<method> is not available when novelty=False" while `fit_predict` is present;
with `novelty=True`, accessing `fit_predict` raises `AttributeError` with
message "fit_predict is not available when novelty=True" while `predict`,
`decision_function` and `score_samples` are present. -/
theorem C3_novelty_attribute_availability :
    lofGetattr false "predict"
        = Except.error (PyError.attributeError "predict is not available when novelty=False")
    ∧ lofGetattr false "decision_function"
        = Except.error (PyError.attributeError "decision_function is not available when novelty=False")
    ∧ lofGetattr false "score_samples"
        = Except.error (PyError.attributeError "score_samples is not available when novelty=False")
    ∧ lofGetattr false "fit_predict" = Except.ok ()
    ∧ lofGetattr true "fit_predict"
        = Except.error (PyError.attributeError "fit_predict is not available when novelty=True")
    ∧ lofGetattr true "predict" = Except.ok ()
    ∧ lofGetattr true "decision_function" = Except.ok ()
    ∧ lofGetattr true "score_samples" = Except.ok () := by
  refine ⟨?_, ?_, ?_, ?_, ?_, ?_, ?_, ?_⟩ <;> rfl

/-- C5: `fit` raises `ValueError` whenever `contamination` lies outside
`(0, 0.5]`, for every input matrix and every requested neighbor count. -/
theorem C5_contamination_out_of_range (D : List (List ℝ)) (k : Nat) (q : ℚ)
    (h : ¬(0 < q ∧ q ≤ 1 / 2)) :
    lofFitCore k (some q) D = Except.error (PyError.valueError contaminationErrMsg) := by
  cases hcv : contaminationValid (some q) with
  | false => simp [lofFitCore, hcv]
  | true =>
      exfalso
      apply h
      have hv := hcv
      simp only [contaminationValid, Bool.and_eq_true, decide_eq_true_eq] at hv
      exact hv

/-- Witness for C5 at the test's own input: `contamination=0.6` on a 2-sample
matrix. -/
theorem C5_contamination_out_of_range_witness :
    ¬((0:ℚ) < 3 / 5 ∧ (3:ℚ) / 5 ≤ 1 / 2)
    ∧ lofFitCore 20 (some (3 / 5)) ([[0, 1], [1, 0]] : List (List ℝ))
        = Except.error (PyError.valueError contaminationErrMsg) :=
  ⟨by norm_num, C5_contamination_out_of_range _ _ _ (by norm_num)⟩

/-- C7 counterexample: the warning emitted by `UnavailableANN.__init__` (which
calls `warnings.warn` with no category argument) is a `UserWarning`, not a
`RuntimeWarning`. -/
theorem C7_construction_warning_not_runtime :
    (UnavailableANN.init 1 5 "sqeuclidean" (some 1) 0).2.map Warning.category
        = [WarningCategory.userWarning]
    ∧ WarningCategory.userWarning ≠ WarningCategory.runtimeWarning :=
  ⟨rfl, by decide⟩

/-- C7 (amended): constructing `UnavailableANN` emits exactly one warning — a
`UserWarning` (the default category of `warnings.warn`) stating that the
method is unsupported on this platform — and its `kneighbors` returns no
result (`None`) without raising, for every argument combination. -/
theorem C7_unavailable_warns_and_noops (cpuCount : Nat) (nc : Int)
    (metric : String) (n_jobs : Option Int) (verbose : Int)
    (X : Option (List (List ℚ))) (ncand : Option Int) (rd : Bool) :
    (UnavailableANN.init cpuCount nc metric n_jobs verbose).2
        = [{ category := WarningCategory.userWarning, message := unavailableWarningMsg }]
    ∧ (UnavailableANN.init cpuCount nc metric n_jobs verbose).1.kneighbors X ncand rd
        = Except.ok none :=
  ⟨rfl, rfl⟩

/-- C8: at construction, `n_jobs=-1` resolves to the number of processing
units, `n_jobs=None` resolves to `1`, and in both cases the stored value is a
concrete positive integer. -/
theorem C8_n_jobs_resolved_at_construction (cpuCount : Nat) (nc : Int)
    (metric : String) (verbose : Int) (h : 1 ≤ cpuCount) :
    (ApproximateNearestNeighbor.init cpuCount nc metric (some (-1)) verbose).n_jobs
        = (cpuCount : Int)
    ∧ (ApproximateNearestNeighbor.init cpuCount nc metric none verbose).n_jobs = 1
    ∧ 0 < (ApproximateNearestNeighbor.init cpuCount nc metric (some (-1)) verbose).n_jobs
    ∧ 0 < (ApproximateNearestNeighbor.init cpuCount nc metric none verbose).n_jobs := by
  have hpos : (0 : Int) < (cpuCount : Int) := by exact_mod_cast h
  refine ⟨by simp [ApproximateNearestNeighbor.init, resolve_n_jobs], rfl, ?_,
    by norm_num [ApproximateNearestNeighbor.init, resolve_n_jobs]⟩
  simpa [ApproximateNearestNeighbor.init, resolve_n_jobs] using hpos

/-- Witness for C8 on a 4-processor environment. -/
theorem C8_n_jobs_resolved_at_construction_witness :
    1 ≤ 4
    ∧ ((ApproximateNearestNeighbor.init 4 5 "sqeuclidean" (some (-1)) 0).n_jobs = (4:Int)
       ∧ (ApproximateNearestNeighbor.init 4 5 "sqeuclidean" none 0).n_jobs = 1
       ∧ 0 < (ApproximateNearestNeighbor.init 4 5 "sqeuclidean" (some (-1)) 0).n_jobs
       ∧ 0 < (ApproximateNearestNeighbor.init 4 5 "sqeuclidean" none 0).n_jobs) :=
  ⟨by decide, C8_n_jobs_resolved_at_construction 4 5 "sqeuclidean" 0 (by decide)⟩

/-- C9 counterexample: on a freshly constructed (never fitted)
`UnavailableANN`, `kneighbors` returns `None` rather than raising
`NotFittedError` — the body of `UnavailableANN.kneighbors` is `pass`. -/
theorem C9_placeholder_kneighbors_does_not_raise :
    (UnavailableANN.init 1 5 "sqeuclidean" (some 1) 0).1.kneighbors none none true
        = Except.ok none
    ∧ (Except.ok (none : Option (List (List ℚ) × List (List Nat)))
        ≠ (Except.error PyError.notFittedError :
            Except PyError (Option (List (List ℚ) × List (List Nat))))) :=
  ⟨rfl, by simp⟩

/-- C9 (amended): calling `kneighbors` before `fit` fails with `NotFittedError`
for the concrete search backends (modelled from the spec, their sources being
absent), while the platform-unavailable placeholder instead returns no results
(`None`) without raising. -/
theorem C9_kneighbors_before_fit (b : SpecANNBackend)
    (X : Option (List (List ℚ))) (hb : b.fitted = none) (u : UnavailableANN)
    (Xu : Option (List (List ℚ))) (ncand : Option Int) (rd : Bool) :
    b.kneighbors X = Except.error PyError.notFittedError
    ∧ u.kneighbors Xu ncand rd = Except.ok none := by
  refine ⟨?_, rfl⟩
  simp [SpecANNBackend.kneighbors, hb]

/-- Witness for C9 on concrete unfitted instances. -/
theorem C9_kneighbors_before_fit_witness :
    (⟨5, none⟩ : SpecANNBackend).fitted = none
    ∧ ((⟨5, none⟩ : SpecANNBackend).kneighbors none
          = Except.error PyError.notFittedError
       ∧ (⟨5, "sqeuclidean", 1, 0⟩ : UnavailableANN).kneighbors none none true
          = Except.ok none) :=
  ⟨rfl, C9_kneighbors_before_fit _ none rfl _ none none true⟩

/-- C10: for every input accepted by array validation, `UnavailableANN.fit`
returns the very same instance (all constructor-set fields unchanged); for
inputs rejected by array validation it raises instead of returning. -/
theorem C10_unavailable_fit_returns_self (a : UnavailableANN)
    (X : List (List ℚ)) :
    (check_array_ok X = true → a.fit X = Except.ok a)
    ∧ (check_array_ok X = false →
        a.fit X = Except.error (PyError.valueError "check_array failed on X")) := by
  constructor <;> intro h <;> simp [UnavailableANN.fit, h]

/-- C4: whenever `n_neighbors` is at least the number of fitted samples, `fit`
succeeds, clamps the effective neighbor count to `n_samples - 1`, exposes it as
`n_neighbors_`, and emits exactly one warning with the documented text; when
`n_neighbors < n_samples` nothing is corrected and no warning is emitted — the
clamp is the only silently corrected configuration (invalid `contamination`
raises instead, see the theorem for C5). -/
theorem C4_n_neighbors_clamped_with_warning (D : List (List ℚ)) (k : Nat)
    (c : Option ℚ) (hc : contaminationValid c = true) (hD : matrixOk D = true) :
    (D.length ≤ k →
      (lofFitCore k c D).map (fun r => (r.1.n_neighbors_, r.2))
        = Except.ok (D.length - 1,
            [{ category := WarningCategory.userWarning, message := clampWarningMsg }]))
    ∧ (k < D.length →
      (lofFitCore k c D).map (fun r => (r.1.n_neighbors_, r.2))
        = Except.ok (k, [])) := by
  constructor
  · intro hk
    simp [lofFitCore, hc, hD, hk, Except.map]
  · intro hk
    have hk' : ¬(D.length ≤ k) := Nat.not_le.mpr hk
    simp [lofFitCore, hc, hD, hk', Except.map]

/-- Witness for C4: a 2-sample set fitted with `n_neighbors=5` clamps to `1`
and warns; with `n_neighbors=1` it does not. -/
theorem C4_n_neighbors_clamped_with_warning_witness :
    contaminationValid none = true
    ∧ matrixOk ([[0, 1], [1, 0]] : List (List ℚ)) = true
    ∧ ([[0, 1], [1, 0]] : List (List ℚ)).length ≤ 5
    ∧ (lofFitCore 5 none ([[0, 1], [1, 0]] : List (List ℚ))).map
          (fun r => (r.1.n_neighbors_, r.2))
        = Except.ok (1,
            [{ category := WarningCategory.userWarning, message := clampWarningMsg }])
    ∧ (1:Nat) < 2
    ∧ (lofFitCore 1 none ([[0, 1], [1, 0]] : List (List ℚ))).map
          (fun r => (r.1.n_neighbors_, r.2))
        = Except.ok (1, []) :=
  ⟨rfl, by decide, by decide,
   (C4_n_neighbors_clamped_with_warning _ 5 none rfl (by decide)).1 (by decide),
   by decide,
   (C4_n_neighbors_clamped_with_warning _ 1 none rfl (by decide)).2 (by decide)⟩

/-- C6: feature-matrix mode with the Euclidean metric and precomputed-distance
mode agree — fitting on the square Euclidean distance matrix of the point set
yields the same training-set predictions, and the same predictions on new
query rows given their distance matrix to the reference set, as fitting on the
feature matrix itself. -/
theorem C6_precomputed_matches_feature_mode (s : ℚ → ℝ) (X Y : List (List ℚ))
    (k : Nat) (c : Option ℚ) (D DY : List (List ℝ))
    (hD : D = euclidMatrixWith s X) (hDY : DY = crossMatrixWith s Y X) :
    (lofFitFeatures s k c X).map (fun r => r.1.predictTrain)
        = (lofFitCore k c D).map (fun r => r.1.predictTrain)
    ∧ (lofFitFeatures s k c X).map (fun r => r.1.predict (crossMatrixWith s Y X))
        = (lofFitCore k c D).map (fun r => r.1.predict DY) := by
  subst hD hDY
  exact ⟨rfl, rfl⟩

/-- Witness for C6 on a concrete two-point set and one query point. -/
theorem C6_precomputed_matches_feature_mode_witness :
    (lofFitFeatures (fun q => Real.sqrt (q : ℝ)) 1 none [[0], [1]]).map
        (fun r => r.1.predictTrain)
      = (lofFitCore 1 none
          (euclidMatrixWith (fun q => Real.sqrt (q : ℝ)) [[0], [1]])).map
          (fun r => r.1.predictTrain)
    ∧ (lofFitFeatures (fun q => Real.sqrt (q : ℝ)) 1 none [[0], [1]]).map
        (fun r => r.1.predict (crossMatrixWith (fun q => Real.sqrt (q : ℝ)) [[2]] [[0], [1]]))
      = (lofFitCore 1 none
          (euclidMatrixWith (fun q => Real.sqrt (q : ℝ)) [[0], [1]])).map
          (fun r => r.1.predict (crossMatrixWith (fun q => Real.sqrt (q : ℝ)) [[2]] [[0], [1]])) :=
  C6_precomputed_matches_feature_mode _ [[0], [1]] [[2]] 1 none _ _ rfl rfl

/-- Witness for C10 on one accepted and one rejected (ragged) input. -/
theorem C10_unavailable_fit_returns_self_witness :
    check_array_ok [[1, 2], [3, 4]] = true
    ∧ (⟨5, "sqeuclidean", 1, 0⟩ : UnavailableANN).fit [[1, 2], [3, 4]]
        = Except.ok (⟨5, "sqeuclidean", 1, 0⟩ : UnavailableANN)
    ∧ check_array_ok [[1], [2, 3]] = false
    ∧ (⟨5, "sqeuclidean", 1, 0⟩ : UnavailableANN).fit [[1], [2, 3]]
        = Except.error (PyError.valueError "check_array failed on X") :=
  ⟨by decide,
   (C10_unavailable_fit_returns_self _ _).1 (by decide),
   by decide,
   (C10_unavailable_fit_returns_self _ _).2 (by decide)⟩
